import Mathlib

/-
  Verification development for the peer-network reactor of the repository
  (src/src/net/p2p.rs).  The data model and operations below are a shallow
  embedding of `PeerNetwork` and its methods: Rust `HashMap`s become
  association lists, `Result` becomes `Except`, machine integers become `Nat`
  (none of the arithmetic here can overflow at the modelled ranges), and the
  surrounding I/O (poller readiness, channel try_recv outcomes, walker /
  inventory-sync / downloader iteration results) is passed in explicitly as
  data.  Components whose source lives outside the sampled file
  (net/chat.rs, net/db.rs, net/poll.rs, net/connection.rs) are modelled from
  the specification and marked as such in their doc comments.
-/

set_option autoImplicit false

/-- Association-list lookup, modelling `HashMap::get`: the first binding of
the key, if any. -/
def alookup {κ α : Type} [DecidableEq κ] : List (κ × α) → κ → Option α
  | [], _ => none
  | (k, v) :: rest, k' => if k = k' then some v else alookup rest k'

/-- Association-list erasure, modelling `HashMap::remove`: all bindings of
the key are dropped. -/
def aerase {κ α : Type} [DecidableEq κ] : List (κ × α) → κ → List (κ × α)
  | [], _ => []
  | (k, v) :: rest, k' => if k = k' then aerase rest k' else (k, v) :: aerase rest k'

/-- Association-list insertion, modelling `HashMap::insert`: the new binding
replaces any previous binding of the key. -/
def ainsert {κ α : Type} [DecidableEq κ] (l : List (κ × α)) (k : κ) (v : α) : List (κ × α) :=
  (k, v) :: aerase l k

/-- Remove every binding whose VALUE equals `e`; models the loop in
`PeerNetwork::deregister_peer` that collects and removes every neighbor key
mapped to the closed event ID. -/
def eraseByValue {κ : Type} [DecidableEq κ] : List (κ × Nat) → Nat → List (κ × Nat)
  | [], _ => []
  | (k, v) :: rest, e => if v = e then eraseByValue rest e else (k, v) :: eraseByValue rest e

/-- The variants of `net::Error` that the peer-network code under
verification can produce (net/mod.rs declares the full enum outside the
sample; only the constructors used by p2p.rs are modelled). -/
inductive NetError where
  | InvalidHandle
  | NoSuchNeighbor
  | PeerNotConnected
  | NotConnected
  | AlreadyConnected (event_id : Nat)
  | TooManyPeers
  | SocketError
  | OutboxOverflow
deriving DecidableEq

deriving instance DecidableEq for Except

/-- Identity of a remote peer; equality is structural over all four fields
(spec §3, glossary). -/
structure NeighborKey where
  peer_version : Nat
  network_id : Nat
  addrbytes : List Nat
  port : Nat
deriving DecidableEq

/-- The reactor's own identity (net/db.rs `LocalPeer`, modelled from the
spec §3: private signing key, key-expiry block height, network id). -/
structure LocalPeer where
  network_id : Nat
  private_key : Nat
  private_key_expire : Nat
deriving DecidableEq

/-- Burn-chain snapshot; only the tip height is consulted by the code under
verification. -/
structure BurnchainView where
  burn_block_height : Nat
deriving DecidableEq

/-- The connection options consulted by p2p.rs (`num_clients` bounds inbound
conversations; `private_key_lifetime` sizes the next key epoch; the outbox
bound and heartbeat live in the per-conversation options). -/
structure ConnectionOptions where
  num_clients : Nat
  private_key_lifetime : Nat
  outbox_maxlen : Nat
  heartbeat : Nat
deriving DecidableEq

/-- Wire messages are opaque to the dispatch logic; a `Nat` stands for the
signed envelope. -/
abbrev StacksMessage := Nat

/-- Reply handles are opaque correlation tokens. -/
abbrev ReplyHandleP2P := Nat

/-- Liveness statistics of a conversation (net/chat.rs `NeighborStats`,
modelled from the spec §3: direction plus last send / receive / handshake
times). -/
structure NeighborStats where
  outbound : Bool
  last_contact_time : Nat
  last_handshake_time : Nat
  last_send_time : Nat
deriving DecidableEq

/-- Modelled from the spec: per-peer protocol state (§3, §4.3).
`ConversationP2P` itself lives in net/chat.rs, outside the sample; the
fields here are the ones p2p.rs reads or writes (stats, the two heartbeat
settings used at p2p.rs lines 1103 and 1134, the optional confirmed public
key, and a bounded outbox with a sequence counter for handles). -/
structure ConversationP2P where
  event_id : Nat
  stats : NeighborStats
  heartbeat : Nat
  peer_heartbeat : Nat
  public_key : Option Nat
  outbox : List StacksMessage
  outbox_maxlen : Nat
  seq : Nat
  nk : NeighborKey
deriving DecidableEq

/-- Modelled from the spec: a fresh conversation as built by
`ConversationP2P::new` at p2p.rs line 741 — empty inbox/outbox, zeroed
stats, direction as given, no public key yet. -/
def ConversationP2P.new (network_id peer_version : Nat) (addrbytes : List Nat) (port : Nat)
    (opts : ConnectionOptions) (outbound : Bool) (event_id : Nat) : ConversationP2P :=
  { event_id := event_id
    stats := { outbound := outbound, last_contact_time := 0, last_handshake_time := 0, last_send_time := 0 }
    heartbeat := opts.heartbeat
    peer_heartbeat := opts.heartbeat
    public_key := none
    outbox := []
    outbox_maxlen := opts.outbox_maxlen
    seq := 0
    nk := ⟨peer_version, network_id, addrbytes, port⟩ }

/-- `ConversationP2P::set_public_key` (called at p2p.rs line 742). -/
def ConversationP2P.set_public_key (c : ConversationP2P) (pk : Option Nat) : ConversationP2P :=
  { c with public_key := pk }

/-- `ConversationP2P::to_neighbor_key` (p2p.rs line 1199). -/
def ConversationP2P.to_neighbor_key (c : ConversationP2P) : NeighborKey := c.nk

/-- Modelled from the spec (§4.3 `sign_message`): signing binds the payload
to the burn view and local key; it does not fail in the modelled regime, and
the dispatch logic never inspects the envelope, so the payload is returned. -/
def ConversationP2P.sign_message (_c : ConversationP2P) (_view : BurnchainView) (_key : Nat)
    (payload : StacksMessage) : Except NetError StacksMessage :=
  .ok payload

/-- Modelled from the spec (§4.3 `send_signed_request`, §4.7 back-pressure):
queues the message and returns a fresh correlation handle, failing when the
bounded outbox is saturated. -/
def ConversationP2P.send_signed_request (c : ConversationP2P) (msg : StacksMessage) (_ttl : Nat) :
    Except NetError (ConversationP2P × ReplyHandleP2P) :=
  if c.outbox_maxlen ≤ c.outbox.length then .error .OutboxOverflow
  else .ok ({ c with outbox := c.outbox ++ [msg], seq := c.seq + 1 }, c.seq)

/-- Modelled from the spec (§4.3 `relay_signed_message`): like
`send_signed_request` but the handle only tracks flush completion. -/
def ConversationP2P.relay_signed_message (c : ConversationP2P) (msg : StacksMessage) :
    Except NetError (ConversationP2P × ReplyHandleP2P) :=
  if c.outbox_maxlen ≤ c.outbox.length then .error .OutboxOverflow
  else .ok ({ c with outbox := c.outbox ++ [msg], seq := c.seq + 1 }, c.seq)

/-- A TCP socket as seen by the registry: an identity for the poller plus
the remote address (`peer_addr` always succeeds in the model). -/
structure Socket where
  sid : Nat
  addrbytes : List Nat
  port : Nat
deriving DecidableEq

/-- Modelled from the spec: the readiness poller (net/poll.rs
`NetworkState`, outside the sample) — the set of registered socket ids and
the monotone event-ID counter. -/
structure NetworkState where
  registered : List Nat
  next_event : Nat
deriving DecidableEq

/-- Modelled from the spec: `NetworkState::register` adds the socket to the
poller. -/
def NetworkState.register (n : NetworkState) (_event_id : Nat) (s : Socket) : NetworkState :=
  { n with registered := s.sid :: n.registered }

/-- Modelled from the spec: `NetworkState::deregister` removes the socket
from the poller. -/
def NetworkState.deregister (n : NetworkState) (s : Socket) : NetworkState :=
  { n with registered := n.registered.filter (fun x => decide (x ≠ s.sid)) }

/-- Modelled from the spec: `NetworkState::connect` opens a non-blocking
outbound socket to the given address. -/
def NetworkState.connect (n : NetworkState) (addrbytes : List Nat) (port : Nat) : Socket :=
  { sid := n.next_event, addrbytes := addrbytes, port := port }

/-- Persistent neighbor record (net/db.rs, modelled from the spec §3). -/
structure Neighbor where
  addr : NeighborKey
  public_key : Nat
  expire_block : Nat
  whitelisted : Int
  asn : Nat
deriving DecidableEq

/-- The PeerDB is a durable table of `Neighbor` records. -/
abbrev PeerDB := List Neighbor

/-- Modelled from the spec (§6 persisted state: PeerDB keyed by
NeighborKey): `PeerDB::get_peer` looks a record up by network id and socket
address; net/db.rs is outside the sample. -/
def PeerDB.get_peer (db : PeerDB) (network_id : Nat) (addrbytes : List Nat) (port : Nat) :
    Option Neighbor :=
  db.find? (fun n => decide (n.addr.network_id = network_id ∧
                             n.addr.addrbytes = addrbytes ∧ n.addr.port = port))

/-- The four work phases of the reactor (p2p.rs lines 236-242). -/
inductive PeerNetworkWorkState where
  | NeighborWalk
  | BlockInvSync
  | BlockDownload
  | Prune
deriving DecidableEq

/-- Result of a completed neighbor walk as consumed by p2p.rs (broken and
replaced connections, and the prune request flag). -/
structure NeighborWalkResult where
  broken_connections : List NeighborKey
  replaced_neighbors : List NeighborKey
  do_prune : Bool
deriving DecidableEq

/-- The per-tick aggregate returned by `dispatch_network`. -/
structure NetworkResult where
  blocks : List Nat
  confirmed_microblocks : List Nat
deriving DecidableEq

/-- Outcomes of the walker / inventory-sync / downloader iterations invoked
by `do_network_work`.  Those sub-machines live in net/neighbors.rs,
net/inv.rs and net/download.rs outside the sample, so one step of each is
supplied as data: exactly the tuples the p2p.rs call sites destructure. -/
structure WorkEnv where
  walk_done : Bool
  walk_result : Option NeighborWalkResult
  inv_finished : Bool
  inv_dead_neighbors : List NeighborKey
  dns_available : Bool
  download_done : Bool
  download_blocks : List Nat
  download_microblocks : List Nat
  download_broken_http : List Nat
  download_broken_p2p : List NeighborKey
deriving DecidableEq

/-- Inter-thread request to the reactor (p2p.rs lines 93-100). -/
structure NetworkRequest where
  neighbors : List NeighborKey
  message : Option StacksMessage
  expect_reply : Bool
  ttl : Nat
  connect : Bool
deriving DecidableEq

/-- Outcome of `try_recv` on an in-flight rekey reply handle, as observed by
the sweep in `PeerNetwork::rekey` (p2p.rs lines 1228-1242): the reply has
arrived, is still pending, or has failed. -/
inductive ReplyStatus where
  | received
  | pending
  | failed
deriving DecidableEq

/-- The reactor state (p2p.rs lines 244-304).  The walker, inventory and
downloader sub-states are external to the claims and are supplied per step
through `WorkEnv`; the HTTP sub-reactor is kept as its set of registered
event ids. -/
structure PeerNetwork where
  local_peer : LocalPeer
  peer_version : Nat
  chain_view : BurnchainView
  peerdb : PeerDB
  peers : List (Nat × ConversationP2P)
  sockets : List (Nat × Socket)
  events : List (NeighborKey × Nat)
  connecting : List (Nat × (Socket × Bool))
  relay_handles : List ReplyHandleP2P
  network : Option NetworkState
  connection_opts : ConnectionOptions
  work_state : PeerNetworkWorkState
  inv_state : Option (List NeighborKey)
  do_prune : Bool
  rekey_handles : Option (List (Nat × ReplyHandleP2P))
  walk_result : NeighborWalkResult
  http : Option (List Nat)
deriving DecidableEq

/-- `PeerNetwork::lookup_peer` (p2p.rs lines 661-678): fetch the stored
record for the address and return it only when `expire_block <
cur_block_height` (database reads do not fail in the model). -/
def PeerNetwork.lookup_peer (pn : PeerNetwork) (cur_block_height : Nat)
    (addrbytes : List Nat) (port : Nat) : Option Neighbor :=
  match PeerDB.get_peer pn.peerdb pn.local_peer.network_id addrbytes port with
  | none => none
  | some neighbor =>
      if neighbor.expire_block < cur_block_height then some neighbor else none

/-- `PeerNetwork::count_outbound_conversations` (p2p.rs lines 448-456). -/
def PeerNetwork.count_outbound_conversations (peers : List (Nat × ConversationP2P)) : Nat :=
  peers.countP (fun p => p.2.stats.outbound)

/-- Number of inbound conversations: total conversations minus outbound
ones, the quantity rate-limited by `can_register_peer` (p2p.rs line 696). -/
def PeerNetwork.inboundCount (pn : PeerNetwork) : Nat :=
  pn.peers.length - PeerNetwork.count_outbound_conversations pn.peers

/-- `PeerNetwork::can_register_peer` (p2p.rs lines 688-703). -/
def PeerNetwork.can_register_peer (pn : PeerNetwork) (neighbor_key : NeighborKey)
    (outbound : Bool) : Except NetError Unit :=
  match alookup pn.events neighbor_key with
  | some event_id => .error (.AlreadyConnected event_id)
  | none =>
      let num_outbound := PeerNetwork.count_outbound_conversations pn.peers
      if outbound = false ∧ pn.connection_opts.num_clients ≤ pn.peers.length - num_outbound then
        .error .TooManyPeers
      else
        .ok ()

/-- The neighbor key `register_peer` derives for an incoming socket
(p2p.rs lines 720-731): the stored key when `lookup_peer` finds a usable
record, otherwise a key built from the socket address. -/
def PeerNetwork.registerKey (pn : PeerNetwork) (socket : Socket) : NeighborKey :=
  match pn.lookup_peer pn.chain_view.burn_block_height socket.addrbytes socket.port with
  | some neighbor => neighbor.addr
  | none => ⟨pn.peer_version, pn.local_peer.network_id, socket.addrbytes, socket.port⟩

/-- The public key `register_peer` pre-seeds into the new conversation
(p2p.rs lines 728-731, 742): the stored key exactly when `lookup_peer`
returns a record. -/
def PeerNetwork.registerPubkey (pn : PeerNetwork) (socket : Socket) : Option Nat :=
  match pn.lookup_peer pn.chain_view.burn_block_height socket.addrbytes socket.port with
  | some neighbor => some neighbor.public_key
  | none => none

/-- `PeerNetwork::deregister_socket` (p2p.rs lines 768-775): drop the socket
from the poller. -/
def PeerNetwork.deregister_socket (pn : PeerNetwork) (socket : Socket) : PeerNetwork :=
  match pn.network with
  | some net => { pn with network := some (net.deregister socket) }
  | none => pn

/-- `PeerNetwork::register_peer` (p2p.rs lines 710-751).  On any failure the
socket is deregistered from the poller and no registry table is touched; on
success the socket, the fresh conversation and the event binding are
inserted together. -/
def PeerNetwork.register_peer (pn : PeerNetwork) (event_id : Nat) (socket : Socket)
    (outbound : Bool) : PeerNetwork × Except NetError Unit :=
  match pn.can_register_peer (pn.registerKey socket) outbound with
  | .error e => (pn.deregister_socket socket, .error e)
  | .ok _ =>
      ({ pn with
          sockets := ainsert pn.sockets event_id socket
          peers := ainsert pn.peers event_id
            ((ConversationP2P.new pn.local_peer.network_id pn.peer_version
                socket.addrbytes socket.port pn.connection_opts outbound
                event_id).set_public_key (pn.registerPubkey socket))
          events := ainsert pn.events (pn.registerKey socket) event_id }, .ok ())

/-- `PeerNetwork::is_registered` (p2p.rs lines 754-756). -/
def PeerNetwork.is_registered (pn : PeerNetwork) (neighbor_key : NeighborKey) : Bool :=
  (alookup pn.events neighbor_key).isSome

/-- `PeerNetwork::get_event_id` (p2p.rs lines 759-765). -/
def PeerNetwork.get_event_id (pn : PeerNetwork) (neighbor_key : NeighborKey) : Option Nat :=
  alookup pn.events neighbor_key

/-- `PeerNetwork::deregister_peer` (p2p.rs lines 778-814): drop the
conversation and every event binding to this event ID unconditionally; then,
when the network is up and a socket is registered under the ID, also drop
the socket (deregistering it from the poller) and any connecting entry.
The source performs the two unconditional removals first and then branches;
the single match here is the same function. -/
def PeerNetwork.deregister_peer (pn : PeerNetwork) (event_id : Nat) : PeerNetwork :=
  match pn.network, alookup pn.sockets event_id with
  | some net, some sock =>
      { pn with
          peers := aerase pn.peers event_id
          events := eraseByValue pn.events event_id
          network := some (net.deregister sock)
          sockets := aerase pn.sockets event_id
          connecting := aerase pn.connecting event_id }
  | _, _ =>
      { pn with
          peers := aerase pn.peers event_id
          events := eraseByValue pn.events event_id }

/-- `PeerNetwork::deregister_neighbor` (p2p.rs lines 817-825). -/
def PeerNetwork.deregister_neighbor (pn : PeerNetwork) (neighbor_key : NeighborKey) : PeerNetwork :=
  match alookup pn.events neighbor_key with
  | none => pn
  | some event_id => pn.deregister_peer event_id

/-- `PeerNetwork::connect_peer` (p2p.rs lines 476-503): when the key is
already registered, return the existing event ID and change nothing;
otherwise open an outbound socket, register it with the poller under a
fresh event ID and record it as connecting. -/
def PeerNetwork.connect_peer (pn : PeerNetwork) (neighbor : NeighborKey) :
    PeerNetwork × Except NetError Nat :=
  match alookup pn.events neighbor with
  | some event_id => (pn, .ok event_id)
  | none =>
      match pn.network with
      | none => (pn, .error .NotConnected)
      | some net =>
          let sock := net.connect neighbor.addrbytes neighbor.port
          let next_event_id := net.next_event
          let net2 := { net.register next_event_id sock with next_event := net.next_event + 1 }
          ({ pn with
              network := some net2
              connecting := ainsert pn.connecting next_event_id (sock, true) }, .ok next_event_id)

/-- `PeerNetwork::disconnect_peer` (p2p.rs lines 506-526): a no-op for an
unregistered key; for a broken peer, also purge its inventory state. -/
def PeerNetwork.disconnect_peer (pn : PeerNetwork) (neighbor_key : NeighborKey)
    (broken : Bool) : PeerNetwork :=
  match alookup pn.events neighbor_key with
  | none => pn
  | some event_id =>
      let pn1 :=
        if broken then
          match pn.inv_state with
          | some inv =>
              { pn with inv_state := some (inv.filter (fun k => decide (k ≠ neighbor_key))) }
          | none => pn
        else pn
      pn1.deregister_peer event_id

/-- `PeerNetwork::send_message` (p2p.rs lines 390-406): signed request to a
connected neighbor, yielding a reply handle. -/
def PeerNetwork.send_message (pn : PeerNetwork) (neighbor_key : NeighborKey)
    (message : StacksMessage) (ttl : Nat) : PeerNetwork × Except NetError ReplyHandleP2P :=
  match alookup pn.events neighbor_key with
  | none => (pn, .error .NoSuchNeighbor)
  | some event_id =>
      match alookup pn.peers event_id with
      | none => (pn, .error .PeerNotConnected)
      | some convo =>
          match convo.send_signed_request message ttl with
          | .error e => (pn, .error e)
          | .ok (convo2, handle) =>
              ({ pn with peers := ainsert pn.peers event_id convo2 }, .ok handle)

/-- `PeerNetwork::relay_message` (p2p.rs lines 411-430): queue a message to
a connected neighbor and retain the flush handle in `relay_handles`. -/
def PeerNetwork.relay_message (pn : PeerNetwork) (neighbor_key : NeighborKey)
    (message : StacksMessage) : PeerNetwork × Except NetError Unit :=
  match alookup pn.events neighbor_key with
  | none => (pn, .error .NoSuchNeighbor)
  | some event_id =>
      match alookup pn.peers event_id with
      | none => (pn, .error .PeerNotConnected)
      | some convo =>
          match convo.relay_signed_message message with
          | .error e => (pn, .error e)
          | .ok (convo2, handle) =>
              ({ pn with
                  peers := ainsert pn.peers event_id convo2
                  relay_handles := pn.relay_handles ++ [handle] }, .ok ())

/-- `PeerNetwork::broadcast_message` (p2p.rs lines 433-445): relay to each
neighbor in turn, logging and discarding any per-neighbor error. -/
def PeerNetwork.broadcast_message (pn : PeerNetwork) (neighbor_keys : List NeighborKey)
    (message : StacksMessage) : PeerNetwork :=
  neighbor_keys.foldl (fun s nk => (s.relay_message nk message).1) pn

/-- `PeerNetwork::dispatch_request` (p2p.rs lines 530-593): the §4.7 shape
table over a drained `NetworkRequest`. -/
def PeerNetwork.dispatch_request (pn : PeerNetwork) (request : NetworkRequest) :
    PeerNetwork × Except NetError (Option ReplyHandleP2P) :=
  match request.neighbors with
  | [] => (pn, .error .InvalidHandle)
  | [neighbor] =>
      match request.message with
      | none =>
          if request.connect then
            match pn.connect_peer neighbor with
            | (pn2, .ok _) => (pn2, .ok none)
            | (pn2, .error e) => (pn2, .error e)
          else
            (pn.disconnect_peer neighbor false, .ok none)
      | some message =>
          if request.expect_reply then
            match pn.send_message neighbor message request.ttl with
            | (pn2, .ok rh) => (pn2, .ok (some rh))
            | (pn2, .error e) => (pn2, .error e)
          else
            match pn.relay_message neighbor message with
            | (pn2, .ok _) => (pn2, .ok none)
            | (pn2, .error e) => (pn2, .error e)
  | n1 :: n2 :: rest =>
      match request.message with
      | some message => (pn.broadcast_message (n1 :: n2 :: rest) message, .ok none)
      | none => (pn, .error .InvalidHandle)

/-- `PeerNetwork::process_connecting_sockets` (p2p.rs lines 940-951): for
each ready event that is still connecting, remove it from `connecting` and
promote it via `register_peer` (failures are only logged). -/
def PeerNetwork.process_connecting_sockets (pn : PeerNetwork) (ready : List Nat) : PeerNetwork :=
  ready.foldl
    (fun s event_id =>
      match alookup s.connecting event_id with
      | none => s
      | some sb =>
          let s2 := { s with connecting := aerase s.connecting event_id }
          (s2.register_peer event_id sb.1 sb.2).1)
    pn

/-- `PeerNetwork::disconnect_unresponsive` (p2p.rs lines 1130-1144).  The
`NEIGHBOR_REQUEST_TIMEOUT` constant is declared in net/neighbors.rs outside
the sample, so it is a parameter (the spec's request-timeout). -/
def PeerNetwork.disconnect_unresponsive (pn : PeerNetwork) (now : Nat)
    (neighbor_request_timeout : Nat) : PeerNetwork :=
  let to_remove :=
    (pn.peers.filter (fun p =>
      decide (0 < p.2.stats.last_handshake_time ∧
              p.2.stats.last_contact_time + p.2.heartbeat + neighbor_request_timeout < now))).map
      (fun p => p.1)
  to_remove.foldl (fun s e => s.deregister_peer e) pn

/-- `PeerNetwork::process_neighbor_walk` (p2p.rs lines 1084-1096). -/
def PeerNetwork.process_neighbor_walk (pn : PeerNetwork) (wr : NeighborWalkResult) : PeerNetwork :=
  let pn1 := wr.broken_connections.foldl (fun s nk => s.deregister_neighbor nk) pn
  let pn2 := wr.replaced_neighbors.foldl (fun s nk => s.deregister_neighbor nk) pn1
  { pn2 with walk_result := wr }

/-- `PeerNetwork::do_network_work` (p2p.rs lines 1302-1420): one step of the
cyclic work-phase machine.  The walker / inventory / downloader iteration
results are drawn from `env`; the returned Bool is the prune request.  The
duplicate-block bookkeeping of the BlockDownload arm only emits debug logs
in the source and has no state effect, so it is not modelled. -/
def PeerNetwork.do_network_work (pn : PeerNetwork) (env : WorkEnv) (nr : NetworkResult) :
    PeerNetwork × Bool × NetworkResult :=
  match pn.work_state with
  | .NeighborWalk =>
      let pn1 :=
        match env.walk_result with
        | none => pn
        | some wr =>
            let pnA := { pn with do_prune := wr.do_prune }
            let pnB := pnA.process_neighbor_walk wr
            { pnB with work_state := .BlockInvSync }
      let pn2 := if env.walk_done then { pn1 with work_state := .BlockInvSync } else pn1
      (pn2, false, nr)
  | .BlockInvSync =>
      let dead_events := env.inv_dead_neighbors.filterMap (fun nk => alookup pn.events nk)
      let pn1 := dead_events.foldl (fun s e => s.deregister_peer e) pn
      let pn2 := if env.inv_finished then { pn1 with work_state := .BlockDownload } else pn1
      (pn2, false, nr)
  | .BlockDownload =>
      if env.dns_available then
        let nr2 := { nr with
          blocks := nr.blocks ++ env.download_blocks
          confirmed_microblocks := nr.confirmed_microblocks ++ env.download_microblocks }
        let pn1 :=
          match pn.http with
          | some http =>
              { pn with http := some (env.download_broken_http.foldl
                  (fun h e => h.filter (fun x => decide (x ≠ e))) http) }
          | none => pn
        let pn2 := env.download_broken_p2p.foldl (fun s nk => s.disconnect_peer nk true) pn1
        let pn3 := if env.download_done then { pn2 with work_state := .Prune } else pn2
        (pn3, false, nr2)
      else
        ({ pn with work_state := .Prune }, false, nr)
  | .Prune =>
      let r := if pn.do_prune then (true, { pn with do_prune := false }) else (false, pn)
      ({ r.2 with work_state := .NeighborWalk }, r.1, nr)

/-- Modelled from the spec: the payload of the re-handshake envelope
(`HandshakeData::from_local_peer`, net/codec.rs outside the sample) carries
the new identity, here abstracted as the new private key. -/
def handshakePayload (lp : LocalPeer) : StacksMessage :=
  lp.private_key

/-- The handshake-broadcast loop of `PeerNetwork::rekey` (p2p.rs lines
1197-1219): sign and send a handshake on every conversation, collecting an
in-flight reply handle per event ID; a conversation whose outbox is
saturated keeps its state and contributes no handle. -/
def rekeyHandshakeRound (peers : List (Nat × ConversationP2P)) (msg : StacksMessage) :
    List (Nat × ConversationP2P) × List (Nat × ReplyHandleP2P) :=
  peers.foldl
    (fun acc p =>
      match p.2.send_signed_request msg 0 with
      | .ok r => (acc.1 ++ [(p.1, r.1)], acc.2 ++ [(p.1, r.2)])
      | .error _ => (acc.1 ++ [p], acc.2))
    ([], [])

/-- `PeerNetwork::rekey` (p2p.rs lines 1189-1253).  With no in-flight
handles, start a re-key: handshake every conversation and record the
handles.  Otherwise sweep the in-flight handles with the supplied
`try_recv` outcomes: received replies are discarded, failures are logged
and dropped, still-pending handles are retained (keyed by event ID);
`rekey_handles` reverts to `none` once nothing is pending. -/
def PeerNetwork.rekey (pn : PeerNetwork) (_old_local_peer_opt : Option LocalPeer)
    (recv_env : Nat → ReplyStatus) : PeerNetwork :=
  match pn.rekey_handles with
  | none =>
      let r := rekeyHandshakeRound pn.peers (handshakePayload pn.local_peer)
      { pn with peers := r.1, rekey_handles := some r.2 }
  | some inflight =>
      let kept := inflight.filter (fun p => decide (recv_env p.1 = ReplyStatus.pending))
      { pn with rekey_handles := if 0 < kept.length then some kept else none }

/-- Modelled from the spec (§6 `rekey_local`): `PeerDB::rekey` (net/db.rs,
outside the sample) rotates the local private key and installs the new
expiry height. -/
def PeerNetwork.peerdb_rekey (pn : PeerNetwork) (new_expire : Nat) : LocalPeer :=
  { pn.local_peer with private_key := pn.local_peer.private_key + 1, private_key_expire := new_expire }

/-- The re-key tail of `PeerNetwork::dispatch_network` (p2p.rs lines
1504-1517): when `private_key_expire < burn_block_height + 1`, rotate the
key in PeerDB, install the new local peer and start the re-key handshake
round; otherwise, if handles are in flight, just sweep them. -/
def PeerNetwork.rekeyTick (pn : PeerNetwork) (recv_env : Nat → ReplyStatus) : PeerNetwork :=
  if pn.local_peer.private_key_expire < pn.chain_view.burn_block_height + 1 then
    let new_local_peer :=
      pn.peerdb_rekey (pn.local_peer.private_key_expire + pn.connection_opts.private_key_lifetime)
    let pn2 := { pn with local_peer := new_local_peer }
    pn2.rekey (some pn.local_peer) recv_env
  else if pn.rekey_handles.isSome then
    pn.rekey none recv_env
  else
    pn

/-- Successor along the work-phase cycle (spec §4.2). -/
def cycleNext : PeerNetworkWorkState → PeerNetworkWorkState
  | .NeighborWalk => .BlockInvSync
  | .BlockInvSync => .BlockDownload
  | .BlockDownload => .Prune
  | .Prune => .NeighborWalk

/-- A work-phase step may stay put or advance one position along the cycle. -/
def workSucc (a b : PeerNetworkWorkState) : Prop :=
  b = a ∨ b = cycleNext a

/-- The observable operations of one reactor tick, used to state the §4.1
ordering guarantees. -/
inductive TickEvent where
  | refreshBurnView
  | reloadLocalPeer
  | drainForeignRequests
  | actOnForeignRequests
  | sendForeignReplies
  | processNewSockets
  | processConnectingSockets
  | processReadySockets
  | flushRelayHandles
  | clearTimeouts
  | disconnectUnresponsive
  | workPhaseStep
  | sendOutboundMessages
  | pruneConnections
  | queuePingHeartbeats
  | rekeyStep
deriving DecidableEq, BEq

/-- Internal order of `PeerNetwork::dispatch_requests` (p2p.rs lines
597-658): the first loop drains every handle's inbound channel, the second
dispatches each drained request, and the third sends each response back on
the handle's outbound channel — all inside this one call. -/
def dispatchRequestsTrace : List TickEvent :=
  [TickEvent.drainForeignRequests, TickEvent.actOnForeignRequests, TickEvent.sendForeignReplies]

/-- Statement order of `PeerNetwork::dispatch_network` (p2p.rs lines
1427-1520): burn view refresh, local-peer reload, `dispatch_requests`
(expanded to its internal phases), socket registration and promotion,
conversation advancement, relay flush, timeout clearing, the unresponsive
sweep, the work-phase step, the outbound flush, conditional pruning,
heartbeats, and the re-key tail. -/
def dispatchNetworkTrace : List TickEvent :=
  [TickEvent.refreshBurnView, TickEvent.reloadLocalPeer] ++ dispatchRequestsTrace ++
  [TickEvent.processNewSockets, TickEvent.processConnectingSockets, TickEvent.processReadySockets,
   TickEvent.flushRelayHandles, TickEvent.clearTimeouts, TickEvent.disconnectUnresponsive,
   TickEvent.workPhaseStep, TickEvent.sendOutboundMessages, TickEvent.pruneConnections,
   TickEvent.queuePingHeartbeats, TickEvent.rekeyStep]

/-- Connection options for the concrete scenarios: one inbound slot, key
lifetime 100 blocks, outbox bound 5, heartbeat 60 (spec §8 scenarios). -/
def baseOpts : ConnectionOptions := ⟨1, 100, 5, 60⟩

/-- Burn view at height 10 for the concrete scenarios. -/
def baseView : BurnchainView := ⟨10⟩

/-- Local peer on network 7 whose key expires far in the future. -/
def baseLocal : LocalPeer := ⟨7, 41, 1000⟩

/-- A poller with no registered sockets, next event ID 100. -/
def baseNet : NetworkState := ⟨[], 100⟩

/-- An empty walk result. -/
def emptyWalkResult : NeighborWalkResult := ⟨[], [], false⟩

/-- A freshly bound reactor with an empty registry and empty PeerDB. -/
def basePN : PeerNetwork :=
  ⟨baseLocal, 3, baseView, [], [], [], [], [], [], some baseNet, baseOpts,
   PeerNetworkWorkState.NeighborWalk, none, false, none, emptyWalkResult, none⟩

/-- Neighbor key of scenario peer A. -/
def nkA : NeighborKey := ⟨3, 7, [1], 2101⟩

/-- Neighbor key of scenario peer B. -/
def nkB : NeighborKey := ⟨3, 7, [2], 2102⟩

/-- Neighbor key of scenario peer C. -/
def nkC : NeighborKey := ⟨3, 7, [3], 2103⟩

/-- Conversation with peer A (event 1, outbound, empty outbox). -/
def convoA : ConversationP2P := ConversationP2P.new 7 3 [1] 2101 baseOpts true 1

/-- Conversation with peer B (event 2) whose outbox is saturated: five
queued messages against `outbox_maxlen = 5`. -/
def convoB : ConversationP2P :=
  { ConversationP2P.new 7 3 [2] 2102 baseOpts true 2 with outbox := [0, 0, 0, 0, 0] }

/-- Conversation with peer C (event 3, outbound, empty outbox). -/
def convoC : ConversationP2P := ConversationP2P.new 7 3 [3] 2103 baseOpts true 3

/-- Reactor connected to A, B and C, with B's outbox saturated (spec §8
scenario S5). -/
def bcastPN : PeerNetwork :=
  { basePN with
      peers := [(1, convoA), (2, convoB), (3, convoC)]
      sockets := [(1, ⟨11, [1], 2101⟩), (2, ⟨12, [2], 2102⟩), (3, ⟨13, [3], 2103⟩)]
      events := [(nkA, 1), (nkB, 2), (nkC, 3)] }

/-- Reactor one tick before its key expiry boundary: `private_key_expire =
burn_block_height + 1` (height 10, expiry 11), one live conversation, no
re-key in flight. -/
def c2PN : PeerNetwork :=
  { basePN with
      local_peer := ⟨7, 41, 11⟩
      peers := [(1, convoA)]
      sockets := [(1, ⟨11, [1], 2101⟩)]
      events := [(nkA, 1)] }

/-- Reactor whose key is already inside the rotation window: expiry 5 at
burn height 10. -/
def c2wPN : PeerNetwork :=
  { basePN with
      local_peer := ⟨7, 41, 5⟩
      peers := [(1, convoA)]
      sockets := [(1, ⟨11, [1], 2101⟩)]
      events := [(nkA, 1)] }

/-- An inbound socket from address [9]:4040 (socket id 50). -/
def c4Sock : Socket := ⟨50, [9], 4040⟩

/-- The neighbor key `register_peer` derives for `c4Sock` against an empty
PeerDB. -/
def c4NK : NeighborKey := ⟨3, 7, [9], 4040⟩

/-- An inbound conversation occupying the single inbound slot (event 5). -/
def c4InConvo : ConversationP2P := ConversationP2P.new 7 3 [4] 2104 baseOpts false 5

/-- Reactor whose single inbound slot is full AND whose registry already
holds the very key `c4Sock` would register under. -/
def c4PNdup : PeerNetwork :=
  { basePN with
      peers := [(5, c4InConvo)]
      sockets := [(5, ⟨55, [9], 4040⟩)]
      events := [(c4NK, 5)] }

/-- Reactor whose single inbound slot is full, with `c4Sock`'s key not yet
registered. -/
def c4PNfull : PeerNetwork :=
  { basePN with
      peers := [(5, c4InConvo)]
      sockets := [(5, ⟨55, [4], 2104⟩)]
      events := [(⟨3, 7, [4], 2104⟩, 5)] }

/-- A conversation that never completed a handshake (all stats zero) —
event 8, local heartbeat 60. -/
def c7Convo0 : ConversationP2P := ConversationP2P.new 7 3 [1] 2101 baseOpts true 8

/-- Reactor holding only the never-handshaked conversation `c7Convo0`. -/
def c7PN : PeerNetwork :=
  { basePN with
      peers := [(8, c7Convo0)]
      sockets := [(8, ⟨80, [1], 2101⟩)]
      events := [(nkA, 8)] }

/-- A conversation that completed its handshake at epoch second 1000 and
has been silent since. -/
def c7ConvoH : ConversationP2P :=
  { c7Convo0 with stats := ⟨true, 1000, 1000, 1000⟩ }

/-- Reactor holding only the handshaked-then-silent conversation
`c7ConvoH`. -/
def c7PNH : PeerNetwork :=
  { basePN with
      peers := [(8, c7ConvoH)]
      sockets := [(8, ⟨80, [1], 2101⟩)]
      events := [(nkA, 8)] }

/-- Neighbor key used by the connect / disconnect / connect law. -/
def c9NK : NeighborKey := ⟨3, 7, [10], 2100⟩

/-- State reached by a single `connect_peer` followed by promotion of the
connecting socket (event 100 fires ready). -/
def c9Single : PeerNetwork :=
  ((basePN.connect_peer c9NK).1).process_connecting_sockets [100]

/-- State reached by `connect; disconnect; connect` followed by promotion
of both pending connection attempts (events 100 and 101 fire ready). -/
def c9Triple : PeerNetwork :=
  ((((basePN.connect_peer c9NK).1.disconnect_peer c9NK false).connect_peer c9NK).1).process_connecting_sockets
    [100, 101]

/-- A stored neighbor record whose key expired at block 4 (before the
current height 10). -/
def nbExpired : Neighbor := ⟨⟨3, 7, [20], 2120⟩, 777, 4, 0, 0⟩

/-- A stored neighbor record whose key is valid until block 20 (at or above
the current height 10). -/
def nbFresh : Neighbor := ⟨⟨3, 7, [21], 2121⟩, 888, 20, 0, 0⟩

/-- Reactor whose PeerDB holds the expired record `nbExpired`. -/
def c10PNexp : PeerNetwork := { basePN with peerdb := [nbExpired] }

/-- Reactor whose PeerDB holds the unexpired record `nbFresh`. -/
def c10PNfresh : PeerNetwork := { basePN with peerdb := [nbFresh] }

/-- Socket matching the address stored in `nbExpired`. -/
def sockExp : Socket := ⟨60, [20], 2120⟩

/-- Socket matching the address stored in `nbFresh`. -/
def sockFresh : Socket := ⟨61, [21], 2121⟩

/-- Reactor sitting in the Prune phase with the prune latch set. -/
def prunePN : PeerNetwork :=
  { basePN with work_state := PeerNetworkWorkState.Prune, do_prune := true }

/-- A work environment in which every sub-machine reports completion with
no casualties. -/
def quietEnv : WorkEnv := ⟨true, none, true, [], false, true, [], [], [], []⟩

/-- Looking a key up after erasing one: the erased key reads `none`, every
other key is unaffected. -/
theorem alookup_aerase {κ α : Type} [DecidableEq κ] (l : List (κ × α)) (k k' : κ) :
    alookup (aerase l k) k' = if k = k' then none else alookup l k' := by
  induction l with
  | nil => simp [aerase, alookup]
  | cons p rest ih =>
      obtain ⟨a, b⟩ := p
      by_cases hak : a = k <;> by_cases hkk' : k = k' <;>
        simp_all [aerase, alookup]

/-- Looking a key up after an insertion: the inserted key reads the new
value, every other key is unaffected. -/
theorem alookup_ainsert {κ α : Type} [DecidableEq κ] (l : List (κ × α)) (k k' : κ) (v : α) :
    alookup (ainsert l k v) k' = if k = k' then some v else alookup l k' := by
  by_cases hkk' : k = k' <;> simp [ainsert, alookup, hkk', alookup_aerase]

/-- A successful lookup exhibits a member of the list. -/
theorem alookup_mem {κ α : Type} [DecidableEq κ] {l : List (κ × α)} {k : κ} {v : α}
    (h : alookup l k = some v) : (k, v) ∈ l := by
  induction l with
  | nil => simp [alookup] at h
  | cons p rest ih =>
      obtain ⟨a, b⟩ := p
      simp only [alookup] at h
      by_cases hak : a = k
      · rw [if_pos hak] at h
        subst hak
        cases h
        exact List.mem_cons_self _ _
      · rw [if_neg hak] at h
        exact List.mem_cons_of_mem _ (ih h)

/-- Membership after erasure: still a member, and not under the erased key. -/
theorem mem_aerase {κ α : Type} [DecidableEq κ] {l : List (κ × α)} {k : κ} {p : κ × α}
    (h : p ∈ aerase l k) : p ∈ l ∧ p.1 ≠ k := by
  induction l with
  | nil => simp [aerase] at h
  | cons q rest ih =>
      obtain ⟨a, b⟩ := q
      simp only [aerase] at h
      by_cases hak : a = k
      · rw [if_pos hak] at h
        rcases ih h with ⟨h1, h2⟩
        exact ⟨List.mem_cons_of_mem _ h1, h2⟩
      · rw [if_neg hak] at h
        rcases List.mem_cons.mp h with h1 | h1
        · subst h1
          exact ⟨List.mem_cons_self _ _, hak⟩
        · rcases ih h1 with ⟨h2, h3⟩
          exact ⟨List.mem_cons_of_mem _ h2, h3⟩

/-- Membership after value-directed erasure: still a member, and the value
is not the erased one. -/
theorem mem_eraseByValue {κ : Type} [DecidableEq κ] {l : List (κ × Nat)} {e : Nat} {p : κ × Nat}
    (h : p ∈ eraseByValue l e) : p ∈ l ∧ p.2 ≠ e := by
  induction l with
  | nil => simp [eraseByValue] at h
  | cons q rest ih =>
      obtain ⟨a, b⟩ := q
      simp only [eraseByValue] at h
      by_cases hbe : b = e
      · rw [if_pos hbe] at h
        rcases ih h with ⟨h1, h2⟩
        exact ⟨List.mem_cons_of_mem _ h1, h2⟩
      · rw [if_neg hbe] at h
        rcases List.mem_cons.mp h with h1 | h1
        · subst h1
          exact ⟨List.mem_cons_self _ _, hbe⟩
        · rcases ih h1 with ⟨h2, h3⟩
          exact ⟨List.mem_cons_of_mem _ h2, h3⟩

/-- `deregister_peer` always erases the event's conversation. -/
theorem dereg_peers_eq (pn : PeerNetwork) (x : Nat) :
    (pn.deregister_peer x).peers = aerase pn.peers x := by
  unfold PeerNetwork.deregister_peer
  split <;> rfl

/-- `deregister_peer` always erases every event binding to the event ID. -/
theorem dereg_events_eq (pn : PeerNetwork) (x : Nat) :
    (pn.deregister_peer x).events = eraseByValue pn.events x := by
  unfold PeerNetwork.deregister_peer
  split <;> rfl

/-- With the network up, the socket table reads `none` at the deregistered
event and is untouched elsewhere. -/
theorem dereg_sockets_lookup (pn : PeerNetwork) (x e : Nat) (h : pn.network.isSome) :
    alookup (pn.deregister_peer x).sockets e = if x = e then none else alookup pn.sockets e := by
  unfold PeerNetwork.deregister_peer
  split
  · rw [alookup_aerase]
  · rename_i heq
    by_cases hxe : x = e
    · rw [if_pos hxe, ← hxe]
      cases hnet : pn.network with
      | none => rw [hnet] at h; simp at h
      | some net =>
          cases hsock : alookup pn.sockets x with
          | none => rfl
          | some sock => exact (heq net sock hnet hsock).elim
    · rw [if_neg hxe]

/-- A conversation absent before a deregistration is absent after it. -/
theorem dereg_peers_none_mono (pn : PeerNetwork) (x e : Nat)
    (h : alookup pn.peers e = none) : alookup (pn.deregister_peer x).peers e = none := by
  rw [dereg_peers_eq, alookup_aerase]
  by_cases hxe : x = e <;> simp [hxe, h]

/-- A socket absent before a deregistration is absent after it. -/
theorem dereg_sockets_none_mono (pn : PeerNetwork) (x e : Nat)
    (h : alookup pn.sockets e = none) : alookup (pn.deregister_peer x).sockets e = none := by
  unfold PeerNetwork.deregister_peer
  split
  · rw [alookup_aerase]
    by_cases hxe : x = e <;> simp [hxe, h]
  · exact h

/-- `deregister_peer` keeps the network up. -/
theorem dereg_network_isSome (pn : PeerNetwork) (x : Nat) (h : pn.network.isSome) :
    (pn.deregister_peer x).network.isSome := by
  unfold PeerNetwork.deregister_peer
  split
  · rfl
  · exact h

/-- `deregister_peer` leaves the work phase alone. -/
theorem dereg_work_state (pn : PeerNetwork) (x : Nat) :
    (pn.deregister_peer x).work_state = pn.work_state := by
  unfold PeerNetwork.deregister_peer
  split <;> rfl

/-- `deregister_peer` leaves the prune latch alone. -/
theorem dereg_do_prune (pn : PeerNetwork) (x : Nat) :
    (pn.deregister_peer x).do_prune = pn.do_prune := by
  unfold PeerNetwork.deregister_peer
  split <;> rfl

/-- `deregister_socket` touches only the poller state. -/
theorem deregsock_peers (pn : PeerNetwork) (s : Socket) :
    (pn.deregister_socket s).peers = pn.peers := by
  unfold PeerNetwork.deregister_socket
  split <;> rfl

/-- `deregister_socket` leaves the socket table alone. -/
theorem deregsock_sockets (pn : PeerNetwork) (s : Socket) :
    (pn.deregister_socket s).sockets = pn.sockets := by
  unfold PeerNetwork.deregister_socket
  split <;> rfl

/-- `deregister_socket` leaves the event table alone. -/
theorem deregsock_events (pn : PeerNetwork) (s : Socket) :
    (pn.deregister_socket s).events = pn.events := by
  unfold PeerNetwork.deregister_socket
  split <;> rfl

/-- `deregister_socket` leaves the connecting table alone. -/
theorem deregsock_connecting (pn : PeerNetwork) (s : Socket) :
    (pn.deregister_socket s).connecting = pn.connecting := by
  unfold PeerNetwork.deregister_socket
  split <;> rfl

/-- After folding deregistrations over a list of event IDs, any ID that was
in the list — or whose conversation was already absent — has no
conversation. -/
theorem fold_dereg_peers_none (l : List Nat) (pn : PeerNetwork) (e : Nat)
    (h : e ∈ l ∨ alookup pn.peers e = none) :
    alookup (l.foldl (fun s x => s.deregister_peer x) pn).peers e = none := by
  induction l generalizing pn with
  | nil =>
      rcases h with h | h
      · simp at h
      · exact h
  | cons x xs ih =>
      simp only [List.foldl_cons]
      apply ih
      rcases h with h | h
      · rcases List.mem_cons.mp h with h1 | h1
        · right
          rw [dereg_peers_eq, alookup_aerase, if_pos h1.symm]
        · left
          exact h1
      · right
        exact dereg_peers_none_mono pn x e h

/-- After folding deregistrations with the network up, any event ID in the
list — or already socketless — has no socket. -/
theorem fold_dereg_sockets_none (l : List Nat) (pn : PeerNetwork) (e : Nat)
    (hnet : pn.network.isSome)
    (h : e ∈ l ∨ alookup pn.sockets e = none) :
    alookup (l.foldl (fun s x => s.deregister_peer x) pn).sockets e = none := by
  induction l generalizing pn with
  | nil =>
      rcases h with h | h
      · simp at h
      · exact h
  | cons x xs ih =>
      simp only [List.foldl_cons]
      apply ih _ (dereg_network_isSome pn x hnet)
      rcases h with h | h
      · rcases List.mem_cons.mp h with h1 | h1
        · right
          rw [dereg_sockets_lookup pn x e hnet, if_pos h1.symm]
        · left
          exact h1
      · right
        exact dereg_sockets_none_mono pn x e h

/-- After folding deregistrations, no event binding carries an event ID
from the list (and none reappears once gone). -/
theorem fold_dereg_events_ne (l : List Nat) (pn : PeerNetwork) (e : Nat)
    (h : e ∈ l ∨ ∀ p ∈ pn.events, p.2 ≠ e) :
    ∀ p ∈ (l.foldl (fun s x => s.deregister_peer x) pn).events, p.2 ≠ e := by
  induction l generalizing pn with
  | nil =>
      rcases h with h | h
      · simp at h
      · exact h
  | cons x xs ih =>
      simp only [List.foldl_cons]
      apply ih
      rcases h with h | h
      · rcases List.mem_cons.mp h with h1 | h1
        · right
          intro p hp
          rw [dereg_events_eq] at hp
          rcases mem_eraseByValue hp with ⟨_, hne⟩
          rw [← h1] at hne
          exact hne
        · left
          exact h1
      · right
        intro p hp
        rw [dereg_events_eq] at hp
        exact h p (mem_eraseByValue hp).1

/-- C6: registry invariant 1 — `sockets[eid]` exists iff `peers[eid]`
exists.  `register_peer` inserts the conversation and the socket together
(and on failure touches neither table), and `deregister_peer` (with the
network up, as it is during any completed tick) removes both, so the
invariant is preserved by both registry mutators. -/
theorem c6_registry_invariant_one (pn : PeerNetwork) (eid : Nat) (sock : Socket) (ob : Bool)
    (e : Nat) :
    ((∀ x, (alookup pn.peers x).isSome ↔ (alookup pn.sockets x).isSome) →
      ((alookup (pn.register_peer eid sock ob).1.peers e).isSome ↔
        (alookup (pn.register_peer eid sock ob).1.sockets e).isSome)) ∧
    ((pn.register_peer eid sock ob).2 = Except.ok () →
      (alookup (pn.register_peer eid sock ob).1.peers eid).isSome ∧
      (alookup (pn.register_peer eid sock ob).1.sockets eid).isSome) ∧
    (pn.network.isSome →
      (∀ x, (alookup pn.peers x).isSome ↔ (alookup pn.sockets x).isSome) →
      ((alookup (pn.deregister_peer eid).peers e).isSome ↔
        (alookup (pn.deregister_peer eid).sockets e).isSome)) ∧
    (pn.network.isSome →
      alookup (pn.deregister_peer eid).peers eid = none ∧
      alookup (pn.deregister_peer eid).sockets eid = none) := by
  refine ⟨?_, ?_, ?_, ?_⟩
  · intro hinv
    cases hc : pn.can_register_peer (pn.registerKey sock) ob with
    | error err =>
        simp only [PeerNetwork.register_peer, hc, deregsock_peers, deregsock_sockets]
        exact hinv e
    | ok u =>
        cases u
        simp only [PeerNetwork.register_peer, hc]
        rw [alookup_ainsert, alookup_ainsert]
        by_cases he : eid = e
        · simp [he]
        · simp only [if_neg he]
          exact hinv e
  · intro hok
    cases hc : pn.can_register_peer (pn.registerKey sock) ob with
    | error err =>
        simp [PeerNetwork.register_peer, hc] at hok
    | ok u =>
        cases u
        simp only [PeerNetwork.register_peer, hc]
        rw [alookup_ainsert, alookup_ainsert]
        simp
  · intro hnet hinv
    rw [dereg_peers_eq, alookup_aerase, dereg_sockets_lookup pn eid e hnet]
    by_cases he : eid = e
    · simp [he]
    · simp only [if_neg he]
      exact hinv e
  · intro hnet
    refine ⟨?_, ?_⟩
    · rw [dereg_peers_eq, alookup_aerase, if_pos rfl]
    · rw [dereg_sockets_lookup pn eid eid hnet, if_pos rfl]

/-- C6 witness: on the freshly bound reactor the invariant holds and is
preserved by a registration, the successful registration populates both
tables, and a deregistration empties both. -/
theorem c6_registry_invariant_one_witness :
    ((alookup (basePN.register_peer 9 c4Sock true).1.peers 9).isSome ↔
      (alookup (basePN.register_peer 9 c4Sock true).1.sockets 9).isSome) ∧
    ((alookup (basePN.register_peer 9 c4Sock true).1.peers 9).isSome ∧
      (alookup (basePN.register_peer 9 c4Sock true).1.sockets 9).isSome) ∧
    (alookup (c4PNfull.deregister_peer 5).peers 5 = none ∧
      alookup (c4PNfull.deregister_peer 5).sockets 5 = none) := by
  refine ⟨(c6_registry_invariant_one basePN 9 c4Sock true 9).1 (fun x => by rfl),
          (c6_registry_invariant_one basePN 9 c4Sock true 9).2.1 (by rfl),
          (c6_registry_invariant_one c4PNfull 5 c4Sock true 5).2.2.2 (by decide)⟩

/-- C7 (amended): the unresponsive-peer sweep deregisters every peer that
HAS COMPLETED A HANDSHAKE (`last_handshake_time > 0`, the guard at p2p.rs
line 1134) and whose last contact plus its heartbeat plus the request
timeout is exceeded by the current time; afterwards the peer is absent from
`peers`, `sockets` and `events`. -/
theorem c7_unresponsive_evicted (pn : PeerNetwork) (now timeout eid : Nat)
    (convo : ConversationP2P)
    (hnet : pn.network.isSome)
    (hconvo : alookup pn.peers eid = some convo)
    (hhs : 0 < convo.stats.last_handshake_time)
    (htime : convo.stats.last_contact_time + convo.heartbeat + timeout < now) :
    alookup (pn.disconnect_unresponsive now timeout).peers eid = none ∧
    alookup (pn.disconnect_unresponsive now timeout).sockets eid = none ∧
    ∀ nk, alookup (pn.disconnect_unresponsive now timeout).events nk ≠ some eid := by
  have hmem : (eid, convo) ∈ pn.peers := alookup_mem hconvo
  have hin : eid ∈ (pn.peers.filter (fun p =>
      decide (0 < p.2.stats.last_handshake_time ∧
              p.2.stats.last_contact_time + p.2.heartbeat + timeout < now))).map
      (fun p => p.1) := by
    apply List.mem_map.mpr
    refine ⟨(eid, convo), ?_, rfl⟩
    apply List.mem_filter.mpr
    exact ⟨hmem, by simp [hhs, htime]⟩
  simp only [PeerNetwork.disconnect_unresponsive]
  refine ⟨fold_dereg_peers_none _ _ _ (Or.inl hin),
          fold_dereg_sockets_none _ _ _ hnet (Or.inl hin), ?_⟩
  intro nk hcontra
  exact fold_dereg_events_ne _ _ eid (Or.inl hin) _ (alookup_mem hcontra) rfl

/-- C7 witness: the handshaked-then-silent peer of `c7PNH` (handshake at
t = 1000, heartbeat 60, request timeout 30, silent for 95 seconds) is gone
from all three tables after the sweep at t = 1095. -/
theorem c7_unresponsive_evicted_witness :
    alookup (c7PNH.disconnect_unresponsive 1095 30).peers 8 = none ∧
    alookup (c7PNH.disconnect_unresponsive 1095 30).sockets 8 = none := by
  have h := c7_unresponsive_evicted c7PNH 1095 30 8 c7ConvoH (by decide) (by decide)
    (by decide) (by decide)
  exact ⟨h.1, h.2.1⟩

/-- C7 counterexample: a peer that never completed a handshake
(`last_handshake_time = 0`) satisfies the claim's timing condition (last
contact 0 + heartbeat 60 + timeout 30 < now 95) yet the sweep leaves the
registry untouched, because the code additionally requires
`last_handshake_time > 0`. -/
theorem c7_unresponsive_counterexample :
    c7Convo0.stats.last_contact_time + c7Convo0.heartbeat + 30 < 95 ∧
    alookup c7PN.peers 8 = some c7Convo0 ∧
    c7PN.disconnect_unresponsive 95 30 = c7PN := by
  refine ⟨by decide, by decide, by decide⟩

/-- C1: a drained `NetworkRequest` is routed by `dispatch_request` exactly
as the §4.7 shape table prescribes: no neighbors — `InvalidHandle`; one
neighbor and no message — connect or disconnect by the `connect` flag; one
neighbor, a message and `expect_reply` — signed request whose handle is
returned as `some`; one neighbor, a message, no `expect_reply` — relay with
no handle; several neighbors with a message — broadcast with no handle;
several neighbors without a message — `InvalidHandle`. -/
theorem c1_dispatch_shape_table (pn : PeerNetwork) (req : NetworkRequest) :
    (req.neighbors = [] →
      pn.dispatch_request req = (pn, Except.error NetError.InvalidHandle)) ∧
    (∀ n, req.neighbors = [n] → req.message = none → req.connect = true →
      (pn.dispatch_request req).1 = (pn.connect_peer n).1 ∧
      (pn.dispatch_request req).2 =
        Except.map (fun _ => (none : Option ReplyHandleP2P)) (pn.connect_peer n).2) ∧
    (∀ n, req.neighbors = [n] → req.message = none → req.connect = false →
      pn.dispatch_request req = (pn.disconnect_peer n false, Except.ok none)) ∧
    (∀ n m, req.neighbors = [n] → req.message = some m → req.expect_reply = true →
      (pn.dispatch_request req).1 = (pn.send_message n m req.ttl).1 ∧
      (pn.dispatch_request req).2 =
        Except.map (fun h => some h) (pn.send_message n m req.ttl).2) ∧
    (∀ n m, req.neighbors = [n] → req.message = some m → req.expect_reply = false →
      (pn.dispatch_request req).1 = (pn.relay_message n m).1 ∧
      (pn.dispatch_request req).2 =
        Except.map (fun _ => (none : Option ReplyHandleP2P)) (pn.relay_message n m).2) ∧
    (∀ n1 n2 rest m, req.neighbors = n1 :: n2 :: rest → req.message = some m →
      pn.dispatch_request req = (pn.broadcast_message (n1 :: n2 :: rest) m, Except.ok none)) ∧
    (∀ n1 n2 rest, req.neighbors = n1 :: n2 :: rest → req.message = none →
      pn.dispatch_request req = (pn, Except.error NetError.InvalidHandle)) := by
  obtain ⟨nbrs, msg, er, ttlv, cn⟩ := req
  refine ⟨?_, ?_, ?_, ?_, ?_, ?_, ?_⟩
  · intro h
    simp only at h
    subst h
    rfl
  · intro n h hm hc
    simp only at h hm hc
    subst h; subst hm; subst hc
    rcases hcp : pn.connect_peer n with ⟨pn2, r⟩
    cases r <;> simp [PeerNetwork.dispatch_request, hcp, Except.map]
  · intro n h hm hc
    simp only at h hm hc
    subst h; subst hm; subst hc
    rfl
  · intro n m h hm he
    simp only at h hm he
    subst h; subst hm; subst he
    rcases hsm : pn.send_message n m ttlv with ⟨pn2, r⟩
    cases r <;> simp [PeerNetwork.dispatch_request, hsm, Except.map]
  · intro n m h hm he
    simp only at h hm he
    subst h; subst hm; subst he
    rcases hrm : pn.relay_message n m with ⟨pn2, r⟩
    cases r <;> simp [PeerNetwork.dispatch_request, hrm, Except.map]
  · intro n1 n2 rest m h hm
    simp only at h hm
    subst h; subst hm
    rfl
  · intro n1 n2 rest h hm
    simp only at h hm
    subst h; subst hm
    rfl

/-- C1 witness: on concrete reactors, an empty request is rejected as
`InvalidHandle` and a one-neighbor no-message request with the connect flag
clear dispatches as a disconnect. -/
theorem c1_dispatch_shape_table_witness :
    basePN.dispatch_request ⟨[], none, false, 0, false⟩ =
      (basePN, Except.error NetError.InvalidHandle) ∧
    bcastPN.dispatch_request ⟨[nkA], none, false, 0, false⟩ =
      (bcastPN.disconnect_peer nkA false, Except.ok none) := by
  refine ⟨(c1_dispatch_shape_table basePN ⟨[], none, false, 0, false⟩).1 rfl,
          (c1_dispatch_shape_table bcastPN ⟨[nkA], none, false, 0, false⟩).2.2.1 nkA rfl rfl rfl⟩

/-- A relay that fails leaves the reactor untouched (the error is produced
before any mutation in `relay_message`). -/
theorem relay_error_state (s : PeerNetwork) (b : NeighborKey) (m : StacksMessage) (e : NetError)
    (h : (s.relay_message b m).2 = Except.error e) : (s.relay_message b m).1 = s := by
  cases h1 : alookup s.events b with
  | none => simp [PeerNetwork.relay_message, h1]
  | some eid =>
      cases h2 : alookup s.peers eid with
      | none => simp [PeerNetwork.relay_message, h1, h2]
      | some convo =>
          cases h3 : convo.relay_signed_message m with
          | error e2 => simp [PeerNetwork.relay_message, h1, h2, h3]
          | ok r =>
              obtain ⟨c2, hd⟩ := r
              simp only [PeerNetwork.relay_message, h1, h2, h3] at h
              exact Except.noConfusion h

/-- C8: broadcast is best-effort.  A multi-neighbor request with a message
always dispatches as a broadcast returning `Ok` with no handle, and a
neighbor whose relay fails contributes nothing — the remaining neighbors
are processed from the same state. -/
theorem c8_broadcast_best_effort (pn s : PeerNetwork) (req : NetworkRequest)
    (n1 n2 b : NeighborKey) (rest tail : List NeighborKey) (m m' : StacksMessage) :
    (req.neighbors = n1 :: n2 :: rest → req.message = some m →
      pn.dispatch_request req = (pn.broadcast_message (n1 :: n2 :: rest) m, Except.ok none)) ∧
    ((∃ e, (s.relay_message b m').2 = Except.error e) →
      s.broadcast_message (b :: tail) m' = s.broadcast_message tail m') := by
  constructor
  · intro h hm
    obtain ⟨nbrs, msg, er, ttlv, cn⟩ := req
    simp only at h hm
    subst h; subst hm
    rfl
  · rintro ⟨e, he⟩
    unfold PeerNetwork.broadcast_message
    rw [List.foldl_cons, relay_error_state s b m' e he]

/-- C8 witness: with A, B, C connected and B's outbox saturated, the
three-neighbor Ping broadcast dispatches to `Ok` with no handle, skipping
saturated B leaves the state as if B were absent, and A and C both end up
with the Ping queued. -/
theorem c8_broadcast_best_effort_witness :
    bcastPN.dispatch_request ⟨[nkA, nkB, nkC], some 77, false, 0, false⟩ =
      (bcastPN.broadcast_message [nkA, nkB, nkC] 77, Except.ok none) ∧
    bcastPN.broadcast_message [nkB, nkC] 77 = bcastPN.broadcast_message [nkC] 77 ∧
    (alookup (bcastPN.broadcast_message [nkA, nkB, nkC] 77).peers 1).map
      ConversationP2P.outbox = some [77] ∧
    (alookup (bcastPN.broadcast_message [nkA, nkB, nkC] 77).peers 3).map
      ConversationP2P.outbox = some [77] := by
  refine ⟨(c8_broadcast_best_effort bcastPN bcastPN ⟨[nkA, nkB, nkC], some 77, false, 0, false⟩
            nkA nkB nkB [nkC] [nkC] 77 77).1 rfl rfl,
          (c8_broadcast_best_effort bcastPN bcastPN ⟨[nkA, nkB, nkC], some 77, false, 0, false⟩
            nkA nkB nkB [nkC] [nkC] 77 77).2 ⟨NetError.OutboxOverflow, rfl⟩,
          by decide, by decide⟩

/-- C9: `connect_peer` is idempotent — on an already-registered key it
returns `Ok` with the existing event ID and leaves every registry table
untouched; and (connect; disconnect; connect) followed by promotion of the
pending sockets lands in the same connected state as a single promoted
connect, all tables equal and the poller registration equal, differing only
in the consumed event-ID counter. -/
theorem c9_connect_peer_idempotent (pn : PeerNetwork) (nk : NeighborKey) (eid : Nat)
    (h : alookup pn.events nk = some eid) :
    pn.connect_peer nk = (pn, Except.ok eid) ∧
    c9Triple.peers = c9Single.peers ∧
    c9Triple.sockets = c9Single.sockets ∧
    c9Triple.events = c9Single.events ∧
    c9Triple.connecting = c9Single.connecting ∧
    Option.map NetworkState.registered c9Triple.network =
      Option.map NetworkState.registered c9Single.network := by
  refine ⟨?_, by decide, by decide, by decide, by decide, by decide⟩
  simp only [PeerNetwork.connect_peer, h]

/-- C9 witness: on the promoted single-connect state, a second
`connect_peer` for the same key returns the existing event 100 and changes
nothing. -/
theorem c9_connect_peer_idempotent_witness :
    c9Single.connect_peer c9NK = (c9Single, Except.ok 100) :=
  (c9_connect_peer_idempotent c9Single c9NK 100 (by decide)).1

/-- C10 (implicit): `register_peer` pre-seeds the conversation's public key
from the PeerDB record exactly when that record's `expire_block` is
strictly below the current burn height; a record at or above the height
makes `lookup_peer` return `none` and the conversation starts with no
known key. -/
theorem c10_pubkey_preseed (pn : PeerNetwork) (eid : Nat) (sock : Socket) (ob : Bool)
    (n : Neighbor)
    (hdb : PeerDB.get_peer pn.peerdb pn.local_peer.network_id sock.addrbytes sock.port = some n) :
    (n.expire_block < pn.chain_view.burn_block_height →
      pn.lookup_peer pn.chain_view.burn_block_height sock.addrbytes sock.port = some n ∧
      ((pn.register_peer eid sock ob).2 = Except.ok () →
        ∃ c, alookup (pn.register_peer eid sock ob).1.peers eid = some c ∧
             c.public_key = some n.public_key)) ∧
    (pn.chain_view.burn_block_height ≤ n.expire_block →
      pn.lookup_peer pn.chain_view.burn_block_height sock.addrbytes sock.port = none ∧
      ((pn.register_peer eid sock ob).2 = Except.ok () →
        ∃ c, alookup (pn.register_peer eid sock ob).1.peers eid = some c ∧
             c.public_key = none)) := by
  constructor
  · intro hexp
    have hlp : pn.lookup_peer pn.chain_view.burn_block_height sock.addrbytes sock.port = some n := by
      simp [PeerNetwork.lookup_peer, hdb, hexp]
    refine ⟨hlp, ?_⟩
    intro hok
    cases hc : pn.can_register_peer (pn.registerKey sock) ob with
    | error err => simp [PeerNetwork.register_peer, hc] at hok
    | ok u =>
        cases u
        simp only [PeerNetwork.register_peer, hc]
        rw [alookup_ainsert, if_pos rfl]
        refine ⟨_, rfl, ?_⟩
        simp [ConversationP2P.set_public_key, PeerNetwork.registerPubkey, hlp]
  · intro hfresh
    have hlp : pn.lookup_peer pn.chain_view.burn_block_height sock.addrbytes sock.port = none := by
      simp [PeerNetwork.lookup_peer, hdb, not_lt.mpr hfresh]
    refine ⟨hlp, ?_⟩
    intro hok
    cases hc : pn.can_register_peer (pn.registerKey sock) ob with
    | error err => simp [PeerNetwork.register_peer, hc] at hok
    | ok u =>
        cases u
        simp only [PeerNetwork.register_peer, hc]
        rw [alookup_ainsert, if_pos rfl]
        refine ⟨_, rfl, ?_⟩
        simp [ConversationP2P.set_public_key, PeerNetwork.registerPubkey, hlp]

/-- C10 witness: the expired record (expiry 4 < height 10) seeds the key
777 into the registered conversation; the fresh record (expiry 20 ≥ 10)
yields no lookup result and no pre-seeded key. -/
theorem c10_pubkey_preseed_witness :
    c10PNexp.lookup_peer 10 [20] 2120 = some nbExpired ∧
    (∃ c, alookup (c10PNexp.register_peer 9 sockExp true).1.peers 9 = some c ∧
        c.public_key = some 777) ∧
    c10PNfresh.lookup_peer 10 [21] 2121 = none ∧
    (∃ c, alookup (c10PNfresh.register_peer 9 sockFresh true).1.peers 9 = some c ∧
        c.public_key = none) := by
  have h1 := (c10_pubkey_preseed c10PNexp 9 sockExp true nbExpired (by decide)).1 (by decide)
  have h2 := (c10_pubkey_preseed c10PNfresh 9 sockFresh true nbFresh (by decide)).2 (by decide)
  exact ⟨h1.1, h1.2 rfl, h2.1, h2.2 rfl⟩

/-- Folded deregistrations leave the work phase alone. -/
theorem fold_dereg_work_state (l : List Nat) (pn : PeerNetwork) :
    (l.foldl (fun s x => s.deregister_peer x) pn).work_state = pn.work_state := by
  induction l generalizing pn with
  | nil => rfl
  | cons x xs ih =>
      simp only [List.foldl_cons]
      rw [ih, dereg_work_state]

/-- `disconnect_peer` leaves the work phase alone. -/
theorem disc_work_state (pn : PeerNetwork) (nk : NeighborKey) (b : Bool) :
    (pn.disconnect_peer nk b).work_state = pn.work_state := by
  cases h : alookup pn.events nk with
  | none => simp [PeerNetwork.disconnect_peer, h]
  | some eid =>
      simp only [PeerNetwork.disconnect_peer, h, dereg_work_state]
      cases b
      · rfl
      · cases pn.inv_state <;> rfl

/-- Folded hard-disconnects leave the work phase alone. -/
theorem fold_disc_work_state (l : List NeighborKey) (pn : PeerNetwork) :
    (l.foldl (fun s nk => s.disconnect_peer nk true) pn).work_state = pn.work_state := by
  induction l generalizing pn with
  | nil => rfl
  | cons x xs ih =>
      simp only [List.foldl_cons]
      rw [ih, disc_work_state]

/-- C5: one invocation of the work-phase step runs exactly the current
phase and moves the state at most one position along the cycle
NeighborWalk → BlockInvSync → BlockDownload → Prune → NeighborWalk; the
Prune phase always returns to NeighborWalk, requests pruning exactly when
the latched `do_prune` flag is set, and clears the latch. -/
theorem c5_work_phase_step (pn : PeerNetwork) (env : WorkEnv) (nr : NetworkResult) :
    workSucc pn.work_state (pn.do_network_work env nr).1.work_state ∧
    (pn.do_network_work env nr).2.1 =
      (decide (pn.work_state = PeerNetworkWorkState.Prune) && pn.do_prune) ∧
    (pn.work_state = PeerNetworkWorkState.Prune →
      (pn.do_network_work env nr).1.work_state = PeerNetworkWorkState.NeighborWalk ∧
      (pn.do_network_work env nr).1.do_prune = false ∧
      (pn.do_network_work env nr).2.1 = pn.do_prune) := by
  cases hws : pn.work_state with
  | NeighborWalk =>
      refine ⟨?_, ?_, ?_⟩
      · simp only [PeerNetwork.do_network_work, hws]
        cases hwr : env.walk_result with
        | none =>
            cases hwd : env.walk_done with
            | false => simp [workSucc, hws]
            | true => simp [workSucc, cycleNext, hws]
        | some wr =>
            cases hwd : env.walk_done with
            | false => simp [workSucc, cycleNext, hws]
            | true => simp [workSucc, cycleNext, hws]
      · simp [PeerNetwork.do_network_work, hws]
      · intro hcontra
        exact PeerNetworkWorkState.noConfusion hcontra
  | BlockInvSync =>
      refine ⟨?_, ?_, ?_⟩
      · simp only [PeerNetwork.do_network_work, hws]
        cases hfin : env.inv_finished with
        | false => simp [workSucc, fold_dereg_work_state, hws]
        | true => simp [workSucc, cycleNext, hws]
      · simp [PeerNetwork.do_network_work, hws]
      · intro hcontra
        exact PeerNetworkWorkState.noConfusion hcontra
  | BlockDownload =>
      refine ⟨?_, ?_, ?_⟩
      · simp only [PeerNetwork.do_network_work, hws]
        cases hdns : env.dns_available with
        | false => simp [workSucc, cycleNext, hws]
        | true =>
            cases hdone : env.download_done with
            | true => simp [workSucc, cycleNext, hws]
            | false =>
                simp only [Bool.false_eq_true, if_false, if_true]
                rw [workSucc, fold_disc_work_state]
                cases pn.http <;> simp [hws]
      · simp only [PeerNetwork.do_network_work, hws]
        cases hdns : env.dns_available <;> simp
      · intro hcontra
        exact PeerNetworkWorkState.noConfusion hcontra
  | Prune =>
      cases hdp : pn.do_prune with
      | false =>
          refine ⟨?_, ?_, ?_⟩
          · simp [PeerNetwork.do_network_work, hws, hdp, workSucc, cycleNext]
          · simp [PeerNetwork.do_network_work, hws, hdp]
          · intro _
            simp [PeerNetwork.do_network_work, hws, hdp]
      | true =>
          refine ⟨?_, ?_, ?_⟩
          · simp [PeerNetwork.do_network_work, hws, hdp, workSucc, cycleNext]
          · simp [PeerNetwork.do_network_work, hws, hdp]
          · intro _
            simp [PeerNetwork.do_network_work, hws, hdp]

/-- C5 witness: from the Prune phase with the latch set and an all-quiet
environment, one step returns to NeighborWalk, clears the latch, and
requests pruning. -/
theorem c5_work_phase_step_witness :
    (prunePN.do_network_work quietEnv ⟨[], []⟩).1.work_state = PeerNetworkWorkState.NeighborWalk ∧
    (prunePN.do_network_work quietEnv ⟨[], []⟩).1.do_prune = false ∧
    (prunePN.do_network_work quietEnv ⟨[], []⟩).2.1 = prunePN.do_prune :=
  (c5_work_phase_step prunePN quietEnv ⟨[], []⟩).2.2 rfl

/-- C2 (amended): with no re-key already in flight, the tick's re-key tail
initiates a key rotation — PeerDB rotation installed as the new local peer,
a handshake round sent over every conversation, and the in-flight handles
recorded keyed by event ID — if and only if
`private_key_expire < burn_block_height + 1` (that is, the key expires at
or before the CURRENT burn height, not one block later as the spec's
`key_expire ≤ burn_height + 1` would allow). -/
theorem c2_rekey_threshold (pn : PeerNetwork) (env : Nat → ReplyStatus)
    (h : pn.rekey_handles = none) :
    ((pn.rekeyTick env).rekey_handles.isSome ↔
      pn.local_peer.private_key_expire < pn.chain_view.burn_block_height + 1) ∧
    (pn.local_peer.private_key_expire < pn.chain_view.burn_block_height + 1 →
      (pn.rekeyTick env).local_peer =
        pn.peerdb_rekey (pn.local_peer.private_key_expire +
          pn.connection_opts.private_key_lifetime) ∧
      (pn.rekeyTick env).rekey_handles =
        some (rekeyHandshakeRound pn.peers (handshakePayload
          (pn.peerdb_rekey (pn.local_peer.private_key_expire +
            pn.connection_opts.private_key_lifetime)))).2 ∧
      (pn.rekeyTick env).peers =
        (rekeyHandshakeRound pn.peers (handshakePayload
          (pn.peerdb_rekey (pn.local_peer.private_key_expire +
            pn.connection_opts.private_key_lifetime)))).1) ∧
    (¬ pn.local_peer.private_key_expire < pn.chain_view.burn_block_height + 1 →
      pn.rekeyTick env = pn) := by
  by_cases hc : pn.local_peer.private_key_expire < pn.chain_view.burn_block_height + 1
  · have hstep : pn.rekeyTick env =
        { pn with
            local_peer := pn.peerdb_rekey (pn.local_peer.private_key_expire +
              pn.connection_opts.private_key_lifetime)
            peers := (rekeyHandshakeRound pn.peers (handshakePayload
              (pn.peerdb_rekey (pn.local_peer.private_key_expire +
                pn.connection_opts.private_key_lifetime)))).1
            rekey_handles := some (rekeyHandshakeRound pn.peers (handshakePayload
              (pn.peerdb_rekey (pn.local_peer.private_key_expire +
                pn.connection_opts.private_key_lifetime)))).2 } := by
      simp [PeerNetwork.rekeyTick, if_pos hc, PeerNetwork.rekey, h]
    refine ⟨?_, fun _ => ⟨?_, ?_, ?_⟩, fun hn => absurd hc hn⟩
    · rw [hstep]
      simp [hc]
    · rw [hstep]
    · rw [hstep]
    · rw [hstep]
  · have hstep : pn.rekeyTick env = pn := by
      simp [PeerNetwork.rekeyTick, if_neg hc, h]
    refine ⟨?_, fun hcc => absurd hcc hc, fun _ => hstep⟩
    rw [hstep, h]
    simp [hc]

/-- C2 witness: with expiry 5 at burn height 10 (inside the window) the
re-key tail fires: handles appear and the local peer is the PeerDB
rotation with expiry 5 + 100. -/
theorem c2_rekey_threshold_witness :
    ((c2wPN.rekeyTick (fun _ => ReplyStatus.received)).rekey_handles.isSome ↔
      c2wPN.local_peer.private_key_expire < c2wPN.chain_view.burn_block_height + 1) ∧
    (c2wPN.rekeyTick (fun _ => ReplyStatus.received)).local_peer = c2wPN.peerdb_rekey 105 := by
  have h := c2_rekey_threshold c2wPN (fun _ => ReplyStatus.received) rfl
  exact ⟨h.1, (h.2.1 (by decide)).1⟩

/-- C2 counterexample: at the exact boundary the claim asserts a rotation —
`private_key_expire = burn_block_height + 1`, so `key_expire ≤ burn_height
+ 1` holds — yet the tick's re-key tail does nothing: no PeerDB rotation,
no handshake, no recorded handles. -/
theorem c2_rekey_counterexample :
    c2PN.local_peer.private_key_expire ≤ c2PN.chain_view.burn_block_height + 1 ∧
    c2PN.rekey_handles = none ∧
    c2PN.peers ≠ [] ∧
    c2PN.rekeyTick (fun _ => ReplyStatus.received) = c2PN := by
  exact ⟨by decide, rfl, by decide, by decide⟩

/-- C3 (amended): within a tick, a foreign thread's request is drained and
acted upon before the work-phase step, and its reply is sent back on the
foreign thread's channel during that same request-dispatch stage — still
before the work-phase step, outbound flush, pruning, heartbeats and re-key
— not buffered to the end of the tick. -/
theorem c3_foreign_request_ordering :
    dispatchNetworkTrace.indexOf TickEvent.drainForeignRequests <
      dispatchNetworkTrace.indexOf TickEvent.actOnForeignRequests ∧
    dispatchNetworkTrace.indexOf TickEvent.actOnForeignRequests <
      dispatchNetworkTrace.indexOf TickEvent.sendForeignReplies ∧
    dispatchNetworkTrace.indexOf TickEvent.sendForeignReplies <
      dispatchNetworkTrace.indexOf TickEvent.workPhaseStep ∧
    dispatchNetworkTrace.indexOf TickEvent.workPhaseStep <
      dispatchNetworkTrace.indexOf TickEvent.sendOutboundMessages ∧
    dispatchNetworkTrace.indexOf TickEvent.sendOutboundMessages <
      dispatchNetworkTrace.indexOf TickEvent.pruneConnections ∧
    dispatchNetworkTrace.indexOf TickEvent.pruneConnections <
      dispatchNetworkTrace.indexOf TickEvent.queuePingHeartbeats ∧
    dispatchNetworkTrace.indexOf TickEvent.queuePingHeartbeats <
      dispatchNetworkTrace.indexOf TickEvent.rekeyStep := by
  decide

/-- C3 counterexample: the reply to the foreign thread is sent during the
request-dispatch stage, strictly BEFORE the work-phase step — not after the
re-key step as the claim's "not until step 15" requires. -/
theorem c3_reply_timing_counterexample :
    dispatchNetworkTrace.indexOf TickEvent.sendForeignReplies <
      dispatchNetworkTrace.indexOf TickEvent.workPhaseStep ∧
    ¬ (dispatchNetworkTrace.indexOf TickEvent.rekeyStep <
        dispatchNetworkTrace.indexOf TickEvent.sendForeignReplies) := by
  decide

/-- C4 (amended): an inbound registration attempt whose derived neighbor
key is NOT already registered, arriving while the inbound count equals
`num_clients`, fails with `TooManyPeers`; the socket is deregistered from
the poller at once and no registry table changes.  (A duplicate key is
instead rejected as `AlreadyConnected` — the counterexample.) -/
theorem c4_toomanypeers (pn : PeerNetwork) (event_id : Nat) (sock : Socket) (net : NetworkState)
    (hnet : pn.network = some net)
    (hnk : alookup pn.events (pn.registerKey sock) = none)
    (hcap : pn.inboundCount = pn.connection_opts.num_clients) :
    (pn.register_peer event_id sock false).2 = Except.error NetError.TooManyPeers ∧
    (pn.register_peer event_id sock false).1.peers = pn.peers ∧
    (pn.register_peer event_id sock false).1.sockets = pn.sockets ∧
    (pn.register_peer event_id sock false).1.events = pn.events ∧
    (pn.register_peer event_id sock false).1.connecting = pn.connecting ∧
    (pn.register_peer event_id sock false).1.network = some (net.deregister sock) ∧
    sock.sid ∉ (net.deregister sock).registered := by
  have hcan : pn.can_register_peer (pn.registerKey sock) false =
      Except.error NetError.TooManyPeers := by
    have hle : pn.connection_opts.num_clients ≤
        pn.peers.length - PeerNetwork.count_outbound_conversations pn.peers := hcap.ge
    simp only [PeerNetwork.can_register_peer, hnk, eq_self_iff_true, true_and]
    rw [if_pos hle]
  have hds : pn.deregister_socket sock = { pn with network := some (net.deregister sock) } := by
    simp [PeerNetwork.deregister_socket, hnet]
  refine ⟨?_, ?_, ?_, ?_, ?_, ?_, ?_⟩
  · simp [PeerNetwork.register_peer, hcan]
  · simp [PeerNetwork.register_peer, hcan, hds]
  · simp [PeerNetwork.register_peer, hcan, hds]
  · simp [PeerNetwork.register_peer, hcan, hds]
  · simp [PeerNetwork.register_peer, hcan, hds]
  · simp [PeerNetwork.register_peer, hcan, hds]
  · simp [NetworkState.deregister, List.mem_filter]

/-- C4 witness: with the single inbound slot taken and a new address
arriving, registration fails with `TooManyPeers`, the tables are unchanged
and the socket id is gone from the poller. -/
theorem c4_toomanypeers_witness :
    (c4PNfull.register_peer 7 c4Sock false).2 = Except.error NetError.TooManyPeers ∧
    (c4PNfull.register_peer 7 c4Sock false).1.events = c4PNfull.events ∧
    50 ∉ (baseNet.deregister c4Sock).registered := by
  have h := c4_toomanypeers c4PNfull 7 c4Sock baseNet rfl (by decide) (by decide)
  exact ⟨h.1, h.2.2.2.1, h.2.2.2.2.2.2⟩

/-- C4 counterexample: an inbound attempt whose derived key is ALREADY
registered, with the inbound count at `num_clients`, is rejected as
`AlreadyConnected`, not `TooManyPeers` — the duplicate-key check runs
first (p2p.rs lines 689-692). -/
theorem c4_toomanypeers_counterexample :
    c4PNdup.inboundCount = c4PNdup.connection_opts.num_clients ∧
    (c4PNdup.register_peer 7 c4Sock false).2 =
      Except.error (NetError.AlreadyConnected 5) ∧
    (c4PNdup.register_peer 7 c4Sock false).2 ≠ Except.error NetError.TooManyPeers := by
  exact ⟨by decide, by decide, by decide⟩
